import Mathlib

/-!
Verification of the routing/gating core of Master-AI-CoPartner.

This file gives a shallow embedding of the three core components named by the
specification — `IntentRouter` (core/intent_router.py), `CommandHandler`
(core/command_handler.py) and `EventBus` (core/event_bus.py) — and proves the
specification claims about them.

Embedding conventions:
- Python mutable objects become explicit state records threaded through the
  operations; every method returns its updated state.
- The opaque AI backend (`ai_engine.process(prompt, meta)`) is a parameter of
  type `String → String → Except String String`: `Except.error` models a raised
  exception, `Except.ok` a returned string.  `route_intent` returns, besides
  the updated state, the list of backend calls it performed (prompt plus the
  meta source tag) and its own outcome: `Except.error e` models an exception
  escaping `route_intent`, `Except.ok r` a normal return of `r`
  (`r : Option String`, `none` for Python `None`).
- `time.time()` becomes an explicit rational `now` parameter; cooldown
  arithmetic is over `ℚ`.
- Python dicts become association lists (lookup = `List.lookup`, assignment =
  `setKey`, `.get(k, d)` = `lookupD`).
-/

namespace CoPartner

/-! ## Python string primitives

The Python string methods the core uses (`strip`, `lower`, `startswith`,
`split`, `replace`) are modelled by structural recursion over the character
list of a `String`, so that every definition evaluates on concrete inputs. -/

/-- The ASCII whitespace characters stripped by Python `str.strip()` and used
as separators by `str.split()`. -/
def pyIsSpace (c : Char) : Bool :=
  c == ' ' || c == '\t' || c == '\n' || c == '\r' || c == '\x0b' || c == '\x0c'

/-- Python `str.strip()`. -/
def pyStrip (s : String) : String :=
  String.mk (((s.data.dropWhile pyIsSpace).reverse.dropWhile pyIsSpace).reverse)

/-- Lowering of one character, as Python `str.lower()` does on ASCII. -/
def pyLowerChar (c : Char) : Char :=
  if 'A' ≤ c ∧ c ≤ 'Z' then Char.ofNat (c.toNat + 32) else c

/-- Python `str.lower()`. -/
def pyLower (s : String) : String := String.mk (s.data.map pyLowerChar)

/-- Python `str.startswith(pre)`. -/
def pyStartsWith (s pre : String) : Bool := pre.data.isPrefixOf s.data

/-- Left-to-right non-overlapping replacement of a non-empty pattern; the fuel
argument (instantiated with the input length) only drives the structural
recursion. -/
def pyReplaceAux (pat rep : List Char) : Nat → List Char → List Char
  | _, [] => []
  | 0, l => l
  | fuel + 1, c :: rest =>
    if pat.isPrefixOf (c :: rest) then
      rep ++ pyReplaceAux pat rep fuel (List.drop (pat.length - 1) rest)
    else c :: pyReplaceAux pat rep fuel rest

/-- Python `str.replace(pat, rep)`.  The patterns used by the source are the
two fixed non-empty template tokens, so the empty-pattern case is unreachable
and modelled as the identity. -/
def pyReplace (s pat rep : String) : String :=
  if pat = "" then s
  else String.mk (pyReplaceAux pat.data rep.data s.data.length s.data)

/-! ## Data model: messages and router state (core/intent_router.py) -/

/-- An inbound message dict: keys `user`, `text`, `source`. -/
structure Message where
  user : String
  text : String
  source : String
deriving Repr, DecidableEq

/-- The queued co-pilot suggestion: the dict
`self.suggested_response = { message, draft }`. -/
structure Suggestion where
  message : Message
  draft : String
deriving Repr, DecidableEq

/-- The mutable fields of `IntentRouter` (see `IntentRouter.__init__`). -/
structure RouterState where
  auto_reply_enabled : Bool
  respond_now_requested : Bool
  respond_to_suggestion_requested : Bool
  last_message : Option Message
  suggested_response : Option Suggestion
deriving Repr, DecidableEq

/-- `IntentRouter.__init__`: auto-reply off, no triggers, no message, no
suggestion. -/
def routerInit : RouterState :=
  ⟨false, false, false, none, none⟩

/-- The opaque backend `ai_engine`: `process(prompt, meta)` where the meta dict
carries only a source tag.  `Except.error` models a raised exception. -/
abbrev Engine := String → String → Except String String

/-- One backend invocation as recorded in the call trace: the prompt text and
the `source` tag passed in the meta dict (`IntentRouter._call_engine`). -/
structure Call where
  prompt : String
  source : String
deriving Repr, DecidableEq

/-! ## Prompt construction (`IntentRouter._build_prompt`) -/

/-- Python `sep.join(parts)`. -/
def pyJoin (sep : String) : List String → String
  | [] => ""
  | [x] => x
  | x :: y :: xs => x ++ sep ++ pyJoin sep (y :: xs)

/-- The fixed rule lines at the head of every prompt. -/
def promptRules : List String :=
  ["You are an AI co-partner assisting John.",
   "Rules:",
   "- Be concise and step-by-step.",
   "- Do NOT guess.",
   "- If uncertain, ask ONE short question.",
   "- Stay calm and respectful."]

/-- Python truthiness of the optional `vision_description` string
(`if vision_description:`): present and non-empty. -/
def visionTruthy : Option String → Bool
  | none => false
  | some v => v ≠ ""

/-- `IntentRouter._build_prompt(message, vision_description, mode, draft)`. -/
def build_prompt (message : Message) (vision_description : Option String)
    (mode : String) (draft : Option String) : String :=
  let base := promptRules
  let base := if visionTruthy vision_description then
      base ++ ["VISION CONTEXT:", vision_description.getD ""]
    else base
  let base := base ++ ["MESSAGE:", message.user ++ ": " ++ message.text]
  let base :=
    if mode = "draft" then
      base ++ ["TASK: Draft a helpful response. Do not over-explain."]
    else if mode = "verify" then
      base ++ ["DRAFT RESPONSE:", draft.getD "",
        "TASK: Verify the draft matches the context. Fix errors. Shorten if needed. If confidence is low, ask one question instead."]
    else base
  pyJoin "\n" base

/-! ## Engine calls and the two-pass protocol -/

/-- `IntentRouter._call_engine`: one `ai_engine.process(prompt, {source})`
invocation, recorded in the trace. -/
def call_engine (ai_engine : Engine) (prompt : String) (source : String) :
    List Call × Except String String :=
  ([⟨prompt, source⟩], ai_engine prompt source)

/-- `IntentRouter._draft_only`. -/
def draft_only (ai_engine : Engine) (message : Message)
    (vision_description : Option String) : List Call × Except String String :=
  call_engine ai_engine (build_prompt message vision_description "draft" none)
    "intent_router_draft"

/-- `IntentRouter._verify_and_finalize`. -/
def verify_and_finalize (ai_engine : Engine) (draft : String) (message : Message)
    (vision_description : Option String) : List Call × Except String String :=
  call_engine ai_engine
    (build_prompt message vision_description "verify" (some draft))
    "intent_router_verify"

/-- `IntentRouter._generate_response`: draft pass, then verify pass over the
draft; a draft-pass exception aborts before the verify pass. -/
def generate_response (ai_engine : Engine) (message : Message)
    (vision_description : Option String) : List Call × Except String String :=
  let dr := draft_only ai_engine message vision_description
  match dr.2 with
  | Except.error e => (dr.1, Except.error e)
  | Except.ok draft =>
    let vr := verify_and_finalize ai_engine draft message vision_description
    (dr.1 ++ vr.1, vr.2)

/-! ## Routing (`IntentRouter.route_intent`) -/

/-- The outcome of one `route_intent` call: the router state after the call,
the backend calls performed (in order), and the returned value
(`Except.error` = an exception escaped, `Except.ok none` = returned `None`). -/
structure RouteResult where
  state : RouterState
  calls : List Call
  result : Except String (Option String)
deriving Repr

/-- A `return self._generate_response(...)` site: state `s` is whatever the
router state is at that return. -/
def generateAndReturn (s : RouterState) (ai_engine : Engine) (message : Message)
    (vision_description : Option String) : RouteResult :=
  let gr := generate_response ai_engine message vision_description
  ⟨s, gr.1, gr.2.map some⟩

/-- The tail of the co-pilot branch:
`if self.respond_to_suggestion_requested and self.suggested_response:` —
consume the flag, verify the queued draft, clear the suggestion, return the
final text; otherwise return `None`.  `pre` is the call trace accumulated by
the queueing step. -/
def consumeSuggestion (s : RouterState) (ai_engine : Engine)
    (vision_description : Option String) (pre : List Call) : RouteResult :=
  match s.suggested_response with
  | some sug =>
    if s.respond_to_suggestion_requested then
      let s1 := { s with respond_to_suggestion_requested := false }
      let vr := verify_and_finalize ai_engine sug.draft sug.message
        vision_description
      match vr.2 with
      | Except.error e => ⟨s1, pre ++ vr.1, Except.error e⟩
      | Except.ok final =>
        ⟨{ s1 with suggested_response := none }, pre ++ vr.1,
          Except.ok (some final)⟩
    else ⟨s, pre, Except.ok none⟩
  | none => ⟨s, pre, Except.ok none⟩

/-- The co-pilot branch of `route_intent`: if no suggestion is queued, draft
one (a draft-pass exception escapes before the suggestion is stored), then run
the consume step. -/
def copilotRoute (s : RouterState) (ai_engine : Engine) (message : Message)
    (vision_description : Option String) : RouteResult :=
  match s.suggested_response with
  | none =>
    let dr := draft_only ai_engine message vision_description
    match dr.2 with
    | Except.error e => ⟨s, dr.1, Except.error e⟩
    | Except.ok suggestion =>
      consumeSuggestion { s with suggested_response := some ⟨message, suggestion⟩ }
        ai_engine vision_description dr.1
  | some _ => consumeSuggestion s ai_engine vision_description []

/-- `IntentRouter.route_intent(ai_engine, vision_description)`.
The `respond_now` flag is cleared before the generate call, so it stays
consumed even if the backend raises. -/
def route_intent (s : RouterState) (ai_engine : Engine)
    (vision_description : Option String) : RouteResult :=
  match s.last_message with
  | none => ⟨s, [], Except.ok none⟩
  | some message =>
    if pyLower (pyStrip message.source) = "voice_input" then
      generateAndReturn s ai_engine message vision_description
    else if s.auto_reply_enabled then
      generateAndReturn s ai_engine message vision_description
    else if s.respond_now_requested then
      generateAndReturn { s with respond_now_requested := false } ai_engine
        message vision_description
    else
      copilotRoute s ai_engine message vision_description

/-! ## Router control API -/

/-- `IntentRouter.register_message`: replace the last message and drop any
queued suggestion. -/
def register_message (s : RouterState) (message : Message) : RouterState :=
  { s with last_message := some message, suggested_response := none }

/-- `IntentRouter.set_auto_reply`. -/
def set_auto_reply (s : RouterState) (enabled : Bool) : RouterState :=
  { s with auto_reply_enabled := enabled }

/-- `IntentRouter.trigger_respond_now`. -/
def trigger_respond_now (s : RouterState) : RouterState :=
  { s with respond_now_requested := true }

/-- `IntentRouter.trigger_respond_to_suggestion`. -/
def trigger_respond_to_suggestion (s : RouterState) : RouterState :=
  { s with respond_to_suggestion_requested := true }

/-- The results of `n` successive `route_intent` calls from state `s` with no
intervening control calls. -/
def routeSeq (ai_engine : Engine) (vision_description : Option String) :
    Nat → RouterState → List (Except String (Option String))
  | 0, _ => []
  | n + 1, s =>
    let r := route_intent s ai_engine vision_description
    r.result :: routeSeq ai_engine vision_description n r.state

/-! ## Association-list model of Python dicts -/

/-- Python dict assignment `d[k] = v`: replace in place, or append a new entry
at the end. -/
def setKey {α β : Type} [BEq α] : List (α × β) → α → β → List (α × β)
  | [], k, v => [(k, v)]
  | (k1, v1) :: rest, k, v =>
    if k1 == k then (k, v) :: rest else (k1, v1) :: setKey rest k v

/-- Python `d.get(k, dflt)`. -/
def lookupD {α β : Type} [BEq α] (l : List (α × β)) (k : α) (dflt : β) : β :=
  (List.lookup k l).getD dflt

/-! ## CommandHandler (core/command_handler.py)

Permission tiers, role normalization, the bang-command parser, cooldown
ledgers and the chat entry point `handle_chat_message`.  Timestamps
(`time.time()`) are rationals passed in as `now`. -/

/-- The `ROLE_ORDER` table: rank of each recognized role name. -/
def ROLE_ORDER : String → Option Nat := fun r =>
  if r = "everyone" then some 0
  else if r = "subscriber" then some 1
  else if r = "vip" then some 2
  else if r = "moderator" then some 3
  else if r = "broadcaster" then some 4
  else none

/-- `_norm_role`: strip, lowercase, and fall back to `everyone` for
unrecognized role strings. -/
def norm_role (role : String) : String :=
  let r := pyLower (pyStrip role)
  if (ROLE_ORDER r).isSome then r else "everyone"

/-- `_role_allows`: the user's rank must reach the required rank. -/
def role_allows (user_role required_role : String) : Bool :=
  decide (((ROLE_ORDER (norm_role required_role)).getD 0) ≤
    ((ROLE_ORDER (norm_role user_role)).getD 0))

/-- A JSON-style value appearing in a `CommandResult.data` dict. -/
inductive JVal where
  | str (v : String)
  | num (v : ℚ)
  | strList (v : List String)
deriving Repr, DecidableEq

/-- `CommandResult.to_dict()`: the uniform `{status, message, data}` result
(`data = None` is rendered as the empty dict). -/
structure CommandResult where
  status : String
  message : String
  data : List (String × JVal)
deriving Repr, DecidableEq

/-- `CommandDefinition`: one custom command as loaded from config. -/
structure CommandDefinition where
  name : String
  response : String
  permission : String
  cooldown_seconds : ℚ
  user_cooldown_seconds : ℚ
  enabled : Bool
deriving Repr, DecidableEq

/-- The mutable fields of `CommandHandler` that `handle_chat_message` touches:
the custom-command dict and the two cooldown ledgers. -/
structure HandlerState where
  custom_commands : List (String × CommandDefinition)
  last_used_global : List (String × ℚ)
  last_used_user : List ((String × String) × ℚ)
deriving Repr, DecidableEq

/-- The keys of `_built_in_commands` (`ping`, `help`). -/
def builtInNames : List String := ["ping", "help"]

/-- `_cmd_ping`. -/
def cmd_ping (cmd : String) : CommandResult :=
  ⟨"ok", "pong", [("command", JVal.str cmd)]⟩

/-- `_cmd_help`: sorted built-in and custom command names. -/
def cmd_help (st : HandlerState) : CommandResult :=
  let builtins := builtInNames.mergeSort (fun a b => decide (a ≤ b))
  let customs := (st.custom_commands.map Prod.fst).mergeSort
    (fun a b => decide (a ≤ b))
  let msg := "Built-in: " ++ pyJoin ", " builtins
  let msg := if customs ≠ [] then
      msg ++ " | Custom: " ++ pyJoin ", " (customs.take 20) ++
        (if customs.length > 20 then " ..." else "")
    else msg
  ⟨"ok", msg, [("built_in", JVal.strList builtins),
               ("custom", JVal.strList customs)]⟩

/-- `_parse_bang_command`: strip the leading run of `!`, trim, then split off
the first whitespace-delimited token as the (lowercased) name; the rest,
stripped, is the argument string. -/
def parse_bang_command (msg : String) : String × String :=
  let raw := pyStrip (String.mk (msg.data.dropWhile (fun c => c == '!')))
  if raw = "" then ("", "")
  else
    let name := String.mk (raw.data.takeWhile (fun c => ¬ pyIsSpace c))
    let rest := String.mk (raw.data.dropWhile (fun c => ¬ pyIsSpace c))
    (pyLower (pyStrip name), pyStrip rest)

/-- `_check_cooldowns`: global gate first, then the per-user gate; on a hit
return `false` with the remaining wait, else `true`. -/
def check_cooldowns (st : HandlerState) (cmd user : String)
    (now global_cd user_cd : ℚ) : Bool × ℚ :=
  let last_g := lookupD st.last_used_global cmd 0
  if global_cd > 0 ∧ now - last_g < global_cd then
    (false, max 0 (global_cd - (now - last_g)))
  else
    let last_u := lookupD st.last_used_user (cmd, user) 0
    if user_cd > 0 ∧ now - last_u < user_cd then
      (false, max 0 (user_cd - (now - last_u)))
    else (true, 0)

/-- `_mark_used`: stamp both ledgers with `now`. -/
def mark_used (st : HandlerState) (cmd user : String) (now : ℚ) : HandlerState :=
  { st with
    last_used_global := setKey st.last_used_global cmd now,
    last_used_user := setKey st.last_used_user (cmd, user) now }

/-- `_render_response`: literal substring replacement of the two template
tokens (written here with escaped braces). -/
def render_response (template user args : String) : String :=
  pyReplace (pyReplace template "\x7b\x7buser\x7d\x7d" user)
    "\x7b\x7bargs\x7d\x7d" args

/-- Python `round` to the nearest integer with ties to even (used by
`round(wait, 1)` and the `.1f` format, both at one decimal). -/
def roundHalfEvenInt (q : ℚ) : ℤ :=
  if q - ⌊q⌋ < 1 / 2 then ⌊q⌋
  else if q - ⌊q⌋ > 1 / 2 then ⌊q⌋ + 1
  else if ⌊q⌋ % 2 = 0 then ⌊q⌋ else ⌊q⌋ + 1

/-- `round(q, 1)`. -/
def round1 (q : ℚ) : ℚ := (roundHalfEvenInt (q * 10) : ℚ) / 10

/-- The `.1f` format of a nonnegative rational. -/
def formatTenth (q : ℚ) : String :=
  let n := roundHalfEvenInt (q * 10)
  toString (n / 10) ++ "." ++ toString (n % 10)

/-- `CommandHandler.handle_chat_message(text, user=..., role=..., source=...)`
(the `source` argument is used only for logging and is omitted).  Returns the
optional command-result dict and the updated handler state.  Only the `!`
prefix starts a command; built-ins come before custom commands; then the
enabled, permission and cooldown gates run in order, and a success stamps both
cooldown ledgers. -/
def handle_chat_message (st : HandlerState) (text user role : String)
    (now : ℚ) : Option CommandResult × HandlerState :=
  let msg := pyStrip text
  if ¬ pyStartsWith msg "!" then (none, st)
  else
    let p := parse_bang_command msg
    let name := p.1
    let args := p.2
    if name = "" then (some ⟨"error", "Empty command name", []⟩, st)
    else if name = "ping" then (some (cmd_ping name), st)
    else if name = "help" then (some (cmd_help st), st)
    else
      match List.lookup name st.custom_commands with
      | none =>
        (some ⟨"unknown_command", "Unknown command: !" ++ name, []⟩, st)
      | some cmd =>
        if ¬ cmd.enabled then
          (some ⟨"disabled", "Command disabled: !" ++ name, []⟩, st)
        else if ¬ role_allows (norm_role role) cmd.permission then
          (some ⟨"blocked", "Not allowed for your role", []⟩, st)
        else
          let cw := check_cooldowns st name user now cmd.cooldown_seconds
            cmd.user_cooldown_seconds
          if ¬ cw.1 then
            (some ⟨"cooldown",
              "Cooldown active. Try again in " ++ formatTenth cw.2 ++ "s",
              [("retry_after_seconds", JVal.num (round1 cw.2))]⟩, st)
          else
            let st1 := mark_used st name user now
            (some ⟨"ok", render_response cmd.response user args,
              [("command", JVal.str name)]⟩, st1)

/-! ## EventBus (core/event_bus.py)

A callback is modelled as a function from the payload to an outcome
(`Except.error` = the callback raised).  `publish` returns the list of
callback outcomes in invocation order; its own return type is total — a
callback failure is logged inside the loop and never re-raised to the
publisher. -/

/-- The `_subscribers` dict: event name to callback list. -/
structure EventBus (α : Type) where
  subscribers : List (String × List (α → Except String Unit))

/-- `EventBus.subscribe`: create the entry if missing, then append. -/
def subscribe {α : Type} (bus : EventBus α) (event_name : String)
    (callback : α → Except String Unit) : EventBus α :=
  let cbs := (List.lookup event_name bus.subscribers).getD []
  ⟨setKey bus.subscribers event_name (cbs ++ [callback])⟩

/-- The subscriber loop of `EventBus.publish`: each callback is invoked inside
`try/except`, so its outcome is recorded and the loop continues regardless. -/
def publishLoop {α : Type} (data : α) :
    List (α → Except String Unit) → List (Except String Unit)
  | [] => []
  | cb :: rest => cb data :: publishLoop data rest

/-- `EventBus.publish`: with no subscribers for the event, log and return;
otherwise invoke every subscriber in subscription order. -/
def publish {α : Type} (bus : EventBus α) (event_name : String) (data : α) :
    List (Except String Unit) :=
  match List.lookup event_name bus.subscribers with
  | none => []
  | some cbs => publishLoop data cbs

/-! ## Concrete instances used by the witness theorems -/

/-- A backend that always succeeds, tagging its answer with the call. -/
def wEngine : Engine := fun prompt source => Except.ok (source ++ "|" ++ prompt)

/-- A backend whose every call raises. -/
def wFailEngine : Engine := fun _ _ => Except.error "boom"

/-- A registered voice message. -/
def wVoiceMsg : Message := ⟨"john", "hello", "voice_input"⟩

/-- Voice message registered while every permission flag is on: the flags must
not matter on the voice path. -/
def wVoiceState : RouterState := ⟨true, true, true, some wVoiceMsg, none⟩

/-- A chat-origin message. -/
def wChatMsg : Message := ⟨"viewer123", "hi there", "twitch"⟩

/-- A second, later chat-origin message. -/
def wMsgB : Message := ⟨"viewer456", "second message", "twitch"⟩

/-- Chat message registered, co-pilot defaults: auto-reply off, no triggers,
no queued suggestion. -/
def wChatState : RouterState := ⟨false, false, false, some wChatMsg, none⟩

/-- Chat message registered with a suggestion already queued for it. -/
def wSugState : RouterState :=
  ⟨false, false, false, some wChatMsg, some ⟨wChatMsg, "old draft for A"⟩⟩

/-- Chat message with a pending respond-now trigger. -/
def wNowState : RouterState := ⟨false, true, false, some wChatMsg, none⟩

/-- Auto-reply on, with both one-shot triggers pending and a queued
suggestion: the auto-reply path must leave all of them alone. -/
def wAutoBusy : RouterState :=
  ⟨true, true, true, some wChatMsg, some ⟨wChatMsg, "stored draft"⟩⟩

/-- Auto-reply on, otherwise quiescent. -/
def wAutoState : RouterState := ⟨true, false, false, some wChatMsg, none⟩

/-- A custom chat command: everyone may run it, 3 s global / 10 s per-user
cooldown. -/
def wCmd : CommandDefinition :=
  ⟨"hello", "Hi \x7b\x7buser\x7d\x7d", "everyone", 3, 10, true⟩

/-- Handler state holding `wCmd`, last used globally at t = 100. -/
def wHandler : HandlerState := ⟨[("hello", wCmd)], [("hello", 100)], []⟩

/-- A subscriber that raises. -/
def wCbFail : Nat → Except String Unit := fun _ => Except.error "subscriber crashed"

/-- A subscriber that succeeds. -/
def wCbOk : Nat → Except String Unit := fun _ => Except.ok ()

/-- A bus with one event: a crashing subscriber followed by a healthy one. -/
def wBus : EventBus Nat := ⟨[("evt", [wCbFail, wCbOk])]⟩

/-! # Theorems

Helper lemmas first, then one theorem per claim (with its witness or
counterexample). -/

/-- Unfolding of `pyJoin` on a list of at least two elements. -/
theorem pyJoin_cons₂ (sep x y : String) (xs : List String) :
    pyJoin sep (x :: y :: xs) = x ++ sep ++ pyJoin sep (y :: xs) := rfl

/-- The head of a joined list is a prefix of the join. -/
theorem pyJoin_head_eq (sep d : String) (ys : List String) :
    ∃ post, pyJoin sep (d :: ys) = d ++ post := by
  cases ys with
  | nil => exact ⟨"", by simp [pyJoin]⟩
  | cons y ys =>
    exact ⟨sep ++ pyJoin sep (y :: ys), by simp [pyJoin, String.append_assoc]⟩

/-- Every element of a joined list occurs verbatim inside the join. -/
theorem pyJoin_sandwich (sep d : String) (xs ys : List String) (hx : xs ≠ []) :
    ∃ pre post, pyJoin sep (xs ++ d :: ys) = pre ++ (d ++ post) := by
  induction xs with
  | nil => exact absurd rfl hx
  | cons x xs ih =>
    cases xs with
    | nil =>
      obtain ⟨post, hpost⟩ := pyJoin_head_eq sep d ys
      exact ⟨x ++ sep, post, by simp [pyJoin, hpost, String.append_assoc]⟩
    | cons x2 xs2 =>
      obtain ⟨pre, post, hp⟩ := ih (by simp)
      refine ⟨x ++ sep ++ pre, post, ?_⟩
      rw [List.cons_append] at hp
      rw [List.cons_append, List.cons_append, pyJoin_cons₂, hp]
      simp [String.append_assoc]

/-- A verify-mode prompt contains the draft it verifies as a verbatim
substring (the `DRAFT RESPONSE:` block of `_build_prompt`). -/
theorem build_prompt_contains_draft (m : Message) (v : Option String) (d : String) :
    ∃ pre post, build_prompt m v "verify" (some d) = pre ++ (d ++ post) := by
  cases hv : visionTruthy v with
  | false =>
    obtain ⟨pre, post, hp⟩ := pyJoin_sandwich "\n" d
      (promptRules ++ ["MESSAGE:", m.user ++ ": " ++ m.text, "DRAFT RESPONSE:"])
      ["TASK: Verify the draft matches the context. Fix errors. Shorten if needed. If confidence is low, ask one question instead."]
      (by simp [promptRules])
    refine ⟨pre, post, ?_⟩
    rw [← hp]
    simp [build_prompt, hv, promptRules]
  | true =>
    obtain ⟨pre, post, hp⟩ := pyJoin_sandwich "\n" d
      (promptRules ++ ["VISION CONTEXT:", v.getD ""] ++
        ["MESSAGE:", m.user ++ ": " ++ m.text, "DRAFT RESPONSE:"])
      ["TASK: Verify the draft matches the context. Fix errors. Shorten if needed. If confidence is low, ask one question instead."]
      (by simp [promptRules])
    refine ⟨pre, post, ?_⟩
    rw [← hp]
    simp [build_prompt, hv, promptRules]

/-- C1: for every registered message whose source normalizes to
`voice_input`, `route_intent` calls the backend exactly twice — a draft-mode
prompt, then a verify-mode prompt built from that draft — and returns the
verify output (non-null) whenever the backend succeeds; the permission flags
are arbitrary here and the router state is left untouched. -/
theorem voice_two_pass (s : RouterState) (ai_engine : Engine)
    (vision : Option String) (m : Message)
    (hm : s.last_message = some m)
    (hv : pyLower (pyStrip m.source) = "voice_input")
    (hok : ∀ p c, ∃ t, ai_engine p c = Except.ok t) :
    ∃ d f,
      ai_engine (build_prompt m vision "draft" none) "intent_router_draft" =
        Except.ok d ∧
      ai_engine (build_prompt m vision "verify" (some d)) "intent_router_verify" =
        Except.ok f ∧
      (route_intent s ai_engine vision).calls =
        [⟨build_prompt m vision "draft" none, "intent_router_draft"⟩,
         ⟨build_prompt m vision "verify" (some d), "intent_router_verify"⟩] ∧
      (route_intent s ai_engine vision).result = Except.ok (some f) ∧
      (route_intent s ai_engine vision).state = s := by
  obtain ⟨d, hd⟩ := hok (build_prompt m vision "draft" none) "intent_router_draft"
  obtain ⟨f, hf⟩ := hok (build_prompt m vision "verify" (some d)) "intent_router_verify"
  refine ⟨d, f, hd, hf, ?_, ?_, ?_⟩ <;>
    simp [route_intent, hm, hv, generateAndReturn, generate_response, draft_only,
      verify_and_finalize, call_engine, hd, hf, Except.map]

/-- Witness for C1: a concrete voice message with every permission flag set,
run against a succeeding backend. -/
theorem voice_two_pass_witness :
    wVoiceState.last_message = some wVoiceMsg ∧
    pyLower (pyStrip wVoiceMsg.source) = "voice_input" ∧
    ∃ d f,
      wEngine (build_prompt wVoiceMsg none "draft" none) "intent_router_draft" =
        Except.ok d ∧
      wEngine (build_prompt wVoiceMsg none "verify" (some d)) "intent_router_verify" =
        Except.ok f ∧
      (route_intent wVoiceState wEngine none).calls =
        [⟨build_prompt wVoiceMsg none "draft" none, "intent_router_draft"⟩,
         ⟨build_prompt wVoiceMsg none "verify" (some d), "intent_router_verify"⟩] ∧
      (route_intent wVoiceState wEngine none).result = Except.ok (some f) ∧
      (route_intent wVoiceState wEngine none).state = wVoiceState :=
  ⟨rfl, rfl, voice_two_pass wVoiceState wEngine none wVoiceMsg rfl rfl
    (fun p c => ⟨c ++ "|" ++ p, rfl⟩)⟩

/-- C10: when `route_intent` answers via the voice path or the auto-reply
path, it leaves both one-shot flags and the queued suggestion exactly as they
were (in fact the whole state), so a pending trigger or suggestion survives
the call. -/
theorem voice_autoreply_frame (s : RouterState) (ai_engine : Engine)
    (vision : Option String) (m : Message)
    (hm : s.last_message = some m)
    (hva : pyLower (pyStrip m.source) = "voice_input" ∨ s.auto_reply_enabled = true) :
    (route_intent s ai_engine vision).state.respond_now_requested =
      s.respond_now_requested ∧
    (route_intent s ai_engine vision).state.respond_to_suggestion_requested =
      s.respond_to_suggestion_requested ∧
    (route_intent s ai_engine vision).state.suggested_response =
      s.suggested_response := by
  have hs : (route_intent s ai_engine vision).state = s := by
    rcases hva with hv | ha
    · simp [route_intent, hm, hv, generateAndReturn]
    · by_cases hv : pyLower (pyStrip m.source) = "voice_input" <;>
        simp [route_intent, hm, hv, ha, generateAndReturn]
  rw [hs]
  exact ⟨rfl, rfl, rfl⟩

/-- Witness for C10: auto-reply on, both triggers pending and a suggestion
queued; the auto-reply answer leaves all three untouched. -/
theorem voice_autoreply_frame_witness :
    wAutoBusy.last_message = some wChatMsg ∧
    (pyLower (pyStrip wChatMsg.source) = "voice_input" ∨
      wAutoBusy.auto_reply_enabled = true) ∧
    ((route_intent wAutoBusy wEngine none).state.respond_now_requested =
      wAutoBusy.respond_now_requested ∧
    (route_intent wAutoBusy wEngine none).state.respond_to_suggestion_requested =
      wAutoBusy.respond_to_suggestion_requested ∧
    (route_intent wAutoBusy wEngine none).state.suggested_response =
      wAutoBusy.suggested_response) :=
  ⟨rfl, Or.inr rfl,
    voice_autoreply_frame wAutoBusy wEngine none wChatMsg rfl (Or.inr rfl)⟩



/-- C2: for a chat-origin message with auto-reply off, no triggers pending
and no suggestion queued, the first `route_intent` call returns `None`, makes
exactly one backend call (the draft pass) and queues exactly one suggestion
pairing the message with that draft; a second call after
`trigger_respond_to_suggestion` (no intervening registration) returns the
verify pass over the stored draft and clears the suggestion slot. -/
theorem copilot_queue_then_confirm (s : RouterState) (ai_engine : Engine)
    (vision : Option String) (m : Message)
    (hm : s.last_message = some m)
    (hsrc : ¬ pyLower (pyStrip m.source) = "voice_input")
    (har : s.auto_reply_enabled = false)
    (hrn : s.respond_now_requested = false)
    (hrs : s.respond_to_suggestion_requested = false)
    (hsug : s.suggested_response = none)
    (hok : ∀ p c, ∃ t, ai_engine p c = Except.ok t) :
    ∃ d f,
      ai_engine (build_prompt m vision "draft" none) "intent_router_draft" =
        Except.ok d ∧
      ai_engine (build_prompt m vision "verify" (some d)) "intent_router_verify" =
        Except.ok f ∧
      (route_intent s ai_engine vision).result = Except.ok none ∧
      (route_intent s ai_engine vision).calls =
        [⟨build_prompt m vision "draft" none, "intent_router_draft"⟩] ∧
      (route_intent s ai_engine vision).state =
        { s with suggested_response := some ⟨m, d⟩ } ∧
      (route_intent (trigger_respond_to_suggestion
          (route_intent s ai_engine vision).state) ai_engine vision).result =
        Except.ok (some f) ∧
      (route_intent (trigger_respond_to_suggestion
          (route_intent s ai_engine vision).state) ai_engine vision).calls =
        [⟨build_prompt m vision "verify" (some d), "intent_router_verify"⟩] ∧
      (route_intent (trigger_respond_to_suggestion
          (route_intent s ai_engine vision).state) ai_engine vision).state.suggested_response =
        none := by
  obtain ⟨d, hd⟩ := hok (build_prompt m vision "draft" none) "intent_router_draft"
  obtain ⟨f, hf⟩ := hok (build_prompt m vision "verify" (some d)) "intent_router_verify"
  have h1 : route_intent s ai_engine vision =
      ⟨{ s with suggested_response := some ⟨m, d⟩ },
        [⟨build_prompt m vision "draft" none, "intent_router_draft"⟩],
        Except.ok none⟩ := by
    simp [route_intent, hm, hsrc, har, hrn, copilotRoute, hsug, draft_only,
      call_engine, hd, consumeSuggestion, hrs]
  have h2 : route_intent (trigger_respond_to_suggestion
      { s with suggested_response := some ⟨m, d⟩ }) ai_engine vision =
      ⟨{ s with respond_to_suggestion_requested := false, suggested_response := none },
        [⟨build_prompt m vision "verify" (some d), "intent_router_verify"⟩],
        Except.ok (some f)⟩ := by
    simp [trigger_respond_to_suggestion, route_intent, hm, hsrc, har, hrn,
      copilotRoute, consumeSuggestion, verify_and_finalize, call_engine, hf]
  refine ⟨d, f, hd, hf, ?_, ?_, ?_, ?_, ?_, ?_⟩ <;> simp [h1, h2]

/-- Witness for C2: the concrete co-pilot default state and a succeeding
backend. -/
theorem copilot_queue_then_confirm_witness :
    wChatState.last_message = some wChatMsg ∧
    (¬ pyLower (pyStrip wChatMsg.source) = "voice_input") ∧
    ∃ d f,
      wEngine (build_prompt wChatMsg none "draft" none) "intent_router_draft" =
        Except.ok d ∧
      wEngine (build_prompt wChatMsg none "verify" (some d)) "intent_router_verify" =
        Except.ok f ∧
      (route_intent wChatState wEngine none).result = Except.ok none ∧
      (route_intent wChatState wEngine none).calls =
        [⟨build_prompt wChatMsg none "draft" none, "intent_router_draft"⟩] ∧
      (route_intent wChatState wEngine none).state =
        { wChatState with suggested_response := some ⟨wChatMsg, d⟩ } ∧
      (route_intent (trigger_respond_to_suggestion
          (route_intent wChatState wEngine none).state) wEngine none).result =
        Except.ok (some f) ∧
      (route_intent (trigger_respond_to_suggestion
          (route_intent wChatState wEngine none).state) wEngine none).calls =
        [⟨build_prompt wChatMsg none "verify" (some d), "intent_router_verify"⟩] ∧
      (route_intent (trigger_respond_to_suggestion
          (route_intent wChatState wEngine none).state) wEngine none).state.suggested_response =
        none :=
  ⟨rfl, by decide,
    copilot_queue_then_confirm wChatState wEngine none wChatMsg rfl (by decide)
      rfl rfl rfl rfl (fun p c => ⟨c ++ "|" ++ p, rfl⟩)⟩



/-- C3: `register_message` unconditionally replaces `last_message` and
empties the suggestion slot (at most one suggestion can ever exist, by type);
after a suggestion was queued for message A, registering chat message B and
then triggering respond-to-suggestion yields a fresh draft and verify cycle
built entirely from B — the verified text comes from B's own draft, never
from A's stale one. -/
theorem register_invalidates_suggestion (s : RouterState) (ai_engine : Engine)
    (vision : Option String) (sugA : Suggestion) (B : Message)
    (_hsug : s.suggested_response = some sugA)
    (hB : ¬ pyLower (pyStrip B.source) = "voice_input")
    (har : s.auto_reply_enabled = false)
    (hrn : s.respond_now_requested = false)
    (hok : ∀ p c, ∃ t, ai_engine p c = Except.ok t) :
    (∀ (t : RouterState) (b : Message),
      (register_message t b).suggested_response = none ∧
      (register_message t b).last_message = some b) ∧
    (register_message s B).suggested_response = none ∧
    ∃ dB fB,
      ai_engine (build_prompt B vision "draft" none) "intent_router_draft" =
        Except.ok dB ∧
      ai_engine (build_prompt B vision "verify" (some dB)) "intent_router_verify" =
        Except.ok fB ∧
      (route_intent (trigger_respond_to_suggestion (register_message s B))
          ai_engine vision).calls =
        [⟨build_prompt B vision "draft" none, "intent_router_draft"⟩,
         ⟨build_prompt B vision "verify" (some dB), "intent_router_verify"⟩] ∧
      (route_intent (trigger_respond_to_suggestion (register_message s B))
          ai_engine vision).result = Except.ok (some fB) := by
  obtain ⟨dB, hdB⟩ := hok (build_prompt B vision "draft" none) "intent_router_draft"
  obtain ⟨fB, hfB⟩ := hok (build_prompt B vision "verify" (some dB)) "intent_router_verify"
  refine ⟨fun t b => ⟨rfl, rfl⟩, rfl, dB, fB, hdB, hfB, ?_, ?_⟩ <;>
    simp [route_intent, trigger_respond_to_suggestion, register_message, hB, har,
      hrn, copilotRoute, consumeSuggestion, draft_only, verify_and_finalize,
      call_engine, hdB, hfB]

/-- Helper: in co-pilot mode with both one-shot flags down and a succeeding
backend, a routing call returns `None` and leaves the gating fields down. -/
theorem copilot_silent (s : RouterState) (ai_engine : Engine)
    (vision : Option String) (m : Message)
    (hm : s.last_message = some m)
    (hsrc : ¬ pyLower (pyStrip m.source) = "voice_input")
    (har : s.auto_reply_enabled = false)
    (hrn : s.respond_now_requested = false)
    (hrs : s.respond_to_suggestion_requested = false)
    (hok : ∀ p c, ∃ t, ai_engine p c = Except.ok t) :
    (route_intent s ai_engine vision).result = Except.ok none ∧
    (route_intent s ai_engine vision).state.last_message = some m ∧
    (route_intent s ai_engine vision).state.auto_reply_enabled = false ∧
    (route_intent s ai_engine vision).state.respond_now_requested = false ∧
    (route_intent s ai_engine vision).state.respond_to_suggestion_requested = false := by
  cases hsug : s.suggested_response with
  | none =>
    obtain ⟨d, hd⟩ := hok (build_prompt m vision "draft" none) "intent_router_draft"
    refine ⟨?_, ?_, ?_, ?_, ?_⟩ <;>
      simp [route_intent, hm, hsrc, har, hrn, hrs, copilotRoute, hsug,
        consumeSuggestion, draft_only, call_engine, hd]
  | some sug =>
    refine ⟨?_, ?_, ?_, ?_, ?_⟩ <;>
      simp [route_intent, hm, hsrc, har, hrn, hrs, copilotRoute, hsug,
        consumeSuggestion]

/-- Helper: any number of routing calls from a chat state with both one-shot
flags down all return `None`. -/
theorem routeSeq_silent (ai_engine : Engine) (vision : Option String)
    (hok : ∀ p c, ∃ t, ai_engine p c = Except.ok t) :
    ∀ (n : Nat) (s : RouterState) (m : Message),
      s.last_message = some m →
      ¬ pyLower (pyStrip m.source) = "voice_input" →
      s.auto_reply_enabled = false →
      s.respond_now_requested = false →
      s.respond_to_suggestion_requested = false →
      ∀ r ∈ routeSeq ai_engine vision n s, r = Except.ok none := by
  intro n
  induction n with
  | zero =>
    intro s m _ _ _ _ _ r hr
    simp [routeSeq] at hr
  | succ k ih =>
    intro s m hm hsrc har hrn hrs r hr
    obtain ⟨h1, h2, h3, h4, h5⟩ :=
      copilot_silent s ai_engine vision m hm hsrc har hrn hrs hok
    simp only [routeSeq, List.mem_cons] at hr
    rcases hr with hr | hr
    · rw [hr, h1]
    · exact ih (route_intent s ai_engine vision).state m h2 hsrc h3 h4 h5 r hr

/-- C4: each one-shot flag is false immediately after the `route_intent`
call that consumes it (`respond_now` is cleared even before the backend is
invoked), and from a chat state with both flags down any number of further
routing calls with no new trigger all return `None` — one trigger never
produces two responses. -/
theorem one_shot_flags (s : RouterState) (ai_engine : Engine)
    (vision : Option String) (m : Message)
    (hm : s.last_message = some m)
    (hsrc : ¬ pyLower (pyStrip m.source) = "voice_input")
    (har : s.auto_reply_enabled = false) :
    (s.respond_now_requested = true →
      (route_intent s ai_engine vision).state.respond_now_requested = false) ∧
    (s.respond_now_requested = false → s.respond_to_suggestion_requested = true →
      (∀ p c, ∃ t, ai_engine p c = Except.ok t) →
      (route_intent s ai_engine vision).state.respond_to_suggestion_requested = false) ∧
    (s.respond_now_requested = false → s.respond_to_suggestion_requested = false →
      (∀ p c, ∃ t, ai_engine p c = Except.ok t) →
      ∀ n, ∀ r ∈ routeSeq ai_engine vision n s, r = Except.ok none) := by
  refine ⟨?_, ?_, ?_⟩
  · intro hrn
    simp [route_intent, hm, hsrc, har, hrn, generateAndReturn]
  · intro hrn hrs hok
    cases hsug : s.suggested_response with
    | none =>
      obtain ⟨d, hd⟩ := hok (build_prompt m vision "draft" none) "intent_router_draft"
      obtain ⟨f, hf⟩ :=
        hok (build_prompt m vision "verify" (some d)) "intent_router_verify"
      simp [route_intent, hm, hsrc, har, hrn, copilotRoute, hsug, draft_only,
        call_engine, hd, consumeSuggestion, hrs, verify_and_finalize, hf]
    | some sug =>
      obtain ⟨f, hf⟩ :=
        hok (build_prompt sug.message vision "verify" (some sug.draft))
          "intent_router_verify"
      simp [route_intent, hm, hsrc, har, hrn, copilotRoute, hsug,
        consumeSuggestion, hrs, verify_and_finalize, call_engine, hf]
  · intro hrn hrs hok n
    exact routeSeq_silent ai_engine vision hok n s m hm hsrc har hrn hrs



/-- Witness for C3: suggestion queued for `wChatMsg`, then `wMsgB` is
registered and the respond-to-suggestion trigger fired. -/
theorem register_invalidates_suggestion_witness :
    wSugState.suggested_response = some ⟨wChatMsg, "old draft for A"⟩ ∧
    (¬ pyLower (pyStrip wMsgB.source) = "voice_input") ∧
    ((∀ (t : RouterState) (b : Message),
      (register_message t b).suggested_response = none ∧
      (register_message t b).last_message = some b) ∧
    (register_message wSugState wMsgB).suggested_response = none ∧
    ∃ dB fB,
      wEngine (build_prompt wMsgB none "draft" none) "intent_router_draft" =
        Except.ok dB ∧
      wEngine (build_prompt wMsgB none "verify" (some dB)) "intent_router_verify" =
        Except.ok fB ∧
      (route_intent (trigger_respond_to_suggestion (register_message wSugState wMsgB))
          wEngine none).calls =
        [⟨build_prompt wMsgB none "draft" none, "intent_router_draft"⟩,
         ⟨build_prompt wMsgB none "verify" (some dB), "intent_router_verify"⟩] ∧
      (route_intent (trigger_respond_to_suggestion (register_message wSugState wMsgB))
          wEngine none).result = Except.ok (some fB)) :=
  ⟨rfl, by decide,
    register_invalidates_suggestion wSugState wEngine none
      ⟨wChatMsg, "old draft for A"⟩ wMsgB rfl (by decide) rfl rfl
      (fun p c => ⟨c ++ "|" ++ p, rfl⟩)⟩

/-- Witness for C4: a pending respond-now trigger on a chat message. -/
theorem one_shot_flags_witness :
    wNowState.last_message = some wChatMsg ∧
    (¬ pyLower (pyStrip wChatMsg.source) = "voice_input") ∧
    wNowState.auto_reply_enabled = false ∧
    ((wNowState.respond_now_requested = true →
      (route_intent wNowState wEngine none).state.respond_now_requested = false) ∧
    (wNowState.respond_now_requested = false →
      wNowState.respond_to_suggestion_requested = true →
      (∀ p c, ∃ t, wEngine p c = Except.ok t) →
      (route_intent wNowState wEngine none).state.respond_to_suggestion_requested = false) ∧
    (wNowState.respond_now_requested = false →
      wNowState.respond_to_suggestion_requested = false →
      (∀ p c, ∃ t, wEngine p c = Except.ok t) →
      ∀ n, ∀ r ∈ routeSeq wEngine none n wNowState, r = Except.ok none)) :=
  ⟨rfl, by decide, rfl,
    one_shot_flags wNowState wEngine none wChatMsg rfl (by decide) rfl⟩



/-- Helper: a non-null outcome of the two-pass generation is the output of
the verify call over the draft the draft pass produced, and that verify call
is in the trace. -/
theorem generate_released (s' : RouterState) (ai_engine : Engine) (m : Message)
    (vision : Option String) (t : String)
    (h : (generateAndReturn s' ai_engine m vision).result = Except.ok (some t)) :
    ∃ d, ai_engine (build_prompt m vision "draft" none) "intent_router_draft" =
        Except.ok d ∧
      ai_engine (build_prompt m vision "verify" (some d)) "intent_router_verify" =
        Except.ok t ∧
      Call.mk (build_prompt m vision "verify" (some d)) "intent_router_verify" ∈
        (generateAndReturn s' ai_engine m vision).calls := by
  cases hd : ai_engine (build_prompt m vision "draft" none) "intent_router_draft" with
  | error e =>
    exfalso
    simp [generateAndReturn, generate_response, draft_only, call_engine, hd,
      Except.map] at h
  | ok d =>
    cases hf : ai_engine (build_prompt m vision "verify" (some d))
        "intent_router_verify" with
    | error e =>
      exfalso
      simp [generateAndReturn, generate_response, draft_only, verify_and_finalize,
        call_engine, hd, hf, Except.map] at h
    | ok f =>
      have hft : f = t := by
        simp [generateAndReturn, generate_response, draft_only, verify_and_finalize,
          call_engine, hd, hf, Except.map] at h
        exact h
      subst hft
      exact ⟨d, rfl, hf, by
        simp [generateAndReturn, generate_response, draft_only, verify_and_finalize,
          call_engine, hd, hf]⟩

/-- Helper: a non-null outcome of the suggestion-consuming step is the
output of the verify call over the stored suggestion, and that verify call is
in the trace. -/
theorem consume_released (s : RouterState) (ai_engine : Engine)
    (vision : Option String) (pre : List Call) (t : String)
    (h : (consumeSuggestion s ai_engine vision pre).result = Except.ok (some t)) :
    ∃ sug, s.suggested_response = some sug ∧
      ai_engine (build_prompt sug.message vision "verify" (some sug.draft))
        "intent_router_verify" = Except.ok t ∧
      Call.mk (build_prompt sug.message vision "verify" (some sug.draft))
        "intent_router_verify" ∈ (consumeSuggestion s ai_engine vision pre).calls := by
  cases hsug : s.suggested_response with
  | none =>
    exfalso
    simp [consumeSuggestion, hsug] at h
  | some sug =>
    by_cases hrs : s.respond_to_suggestion_requested = true
    case neg =>
      exfalso
      simp [consumeSuggestion, hsug, hrs] at h
    case pos =>
      cases hf : ai_engine (build_prompt sug.message vision "verify" (some sug.draft))
          "intent_router_verify" with
      | error e =>
        exfalso
        simp [consumeSuggestion, hsug, hrs, verify_and_finalize, call_engine, hf] at h
      | ok f =>
        have hft : f = t := by
          simp [consumeSuggestion, hsug, hrs, verify_and_finalize, call_engine, hf] at h
          exact h
        subst hft
        exact ⟨sug, rfl, hf, by
          simp [consumeSuggestion, hsug, hrs, verify_and_finalize, call_engine, hf]⟩

/-- C5: every non-null value `route_intent` returns, on every path, is the
output of a verify-pass backend call whose prompt contains the draft verbatim;
a draft-pass output is never returned directly. -/
theorem released_only_verified (s : RouterState) (ai_engine : Engine)
    (vision : Option String) (t : String)
    (h : (route_intent s ai_engine vision).result = Except.ok (some t)) :
    ∃ m2 d,
      Call.mk (build_prompt m2 vision "verify" (some d)) "intent_router_verify" ∈
        (route_intent s ai_engine vision).calls ∧
      ai_engine (build_prompt m2 vision "verify" (some d)) "intent_router_verify" =
        Except.ok t ∧
      ∃ pre post, build_prompt m2 vision "verify" (some d) = pre ++ (d ++ post) := by
  cases hm : s.last_message with
  | none =>
    exfalso
    simp [route_intent, hm] at h
  | some m =>
    by_cases hv : pyLower (pyStrip m.source) = "voice_input"
    · have he : route_intent s ai_engine vision = generateAndReturn s ai_engine m vision := by
        simp [route_intent, hm, hv]
      rw [he] at h
      obtain ⟨d, _, hf, hmem⟩ := generate_released s ai_engine m vision t h
      exact ⟨m, d, by rw [he]; exact hmem, hf, build_prompt_contains_draft m vision d⟩
    · by_cases ha : s.auto_reply_enabled = true
      · have he : route_intent s ai_engine vision =
            generateAndReturn s ai_engine m vision := by
          simp [route_intent, hm, hv, ha]
        rw [he] at h
        obtain ⟨d, _, hf, hmem⟩ := generate_released s ai_engine m vision t h
        exact ⟨m, d, by rw [he]; exact hmem, hf, build_prompt_contains_draft m vision d⟩
      · by_cases hrn : s.respond_now_requested = true
        · have he : route_intent s ai_engine vision =
              generateAndReturn { s with respond_now_requested := false }
                ai_engine m vision := by
            simp [route_intent, hm, hv, ha, hrn]
          rw [he] at h
          obtain ⟨d, _, hf, hmem⟩ :=
            generate_released { s with respond_now_requested := false }
              ai_engine m vision t h
          exact ⟨m, d, by rw [he]; exact hmem, hf, build_prompt_contains_draft m vision d⟩
        · have he : route_intent s ai_engine vision = copilotRoute s ai_engine m vision := by
            simp [route_intent, hm, hv, ha, hrn]
          rw [he] at h
          cases hsug : s.suggested_response with
          | none =>
            cases hd : ai_engine (build_prompt m vision "draft" none)
                "intent_router_draft" with
            | error e =>
              exfalso
              simp [copilotRoute, hsug, draft_only, call_engine, hd] at h
            | ok d0 =>
              have he2 : copilotRoute s ai_engine m vision =
                  consumeSuggestion { s with suggested_response := some ⟨m, d0⟩ }
                    ai_engine vision
                    [⟨build_prompt m vision "draft" none, "intent_router_draft"⟩] := by
                simp [copilotRoute, hsug, draft_only, call_engine, hd]
              rw [he2] at h
              obtain ⟨sug, _, hf, hmem⟩ := consume_released _ ai_engine vision _ t h
              exact ⟨sug.message, sug.draft, by rw [he, he2]; exact hmem, hf,
                build_prompt_contains_draft sug.message vision sug.draft⟩
          | some sug0 =>
            have he2 : copilotRoute s ai_engine m vision =
                consumeSuggestion s ai_engine vision [] := by
              simp [copilotRoute, hsug]
            rw [he2] at h
            obtain ⟨sug, _, hf, hmem⟩ := consume_released s ai_engine vision [] t h
            exact ⟨sug.message, sug.draft, by rw [he, he2]; exact hmem, hf,
              build_prompt_contains_draft sug.message vision sug.draft⟩

/-- Witness for C5: the auto-reply path on a concrete chat message; the
returned text is the verify output over the drafted text. -/
theorem released_only_verified_witness :
    (route_intent wAutoState wEngine none).result = Except.ok (some
      ("intent_router_verify" ++ "|" ++ build_prompt wChatMsg none "verify"
        (some ("intent_router_draft" ++ "|" ++ build_prompt wChatMsg none "draft" none)))) ∧
    ∃ m2 d,
      Call.mk (build_prompt m2 none "verify" (some d)) "intent_router_verify" ∈
        (route_intent wAutoState wEngine none).calls ∧
      wEngine (build_prompt m2 none "verify" (some d)) "intent_router_verify" =
        Except.ok ("intent_router_verify" ++ "|" ++ build_prompt wChatMsg none "verify"
          (some ("intent_router_draft" ++ "|" ++ build_prompt wChatMsg none "draft" none))) ∧
      ∃ pre post, build_prompt m2 none "verify" (some d) = pre ++ (d ++ post) :=
  ⟨rfl, released_only_verified wAutoState wEngine none
    ("intent_router_verify" ++ "|" ++ build_prompt wChatMsg none "verify"
      (some ("intent_router_draft" ++ "|" ++ build_prompt wChatMsg none "draft" none))) rfl⟩



/-- Helper: if the two-pass generation errors, the error is a backend error
and the failing call is in the trace. -/
theorem generate_error (s' : RouterState) (ai_engine : Engine) (m : Message)
    (vision : Option String) (e : String)
    (h : (generateAndReturn s' ai_engine m vision).result = Except.error e) :
    ∃ call ∈ (generateAndReturn s' ai_engine m vision).calls,
      ai_engine call.prompt call.source = Except.error e := by
  cases hd : ai_engine (build_prompt m vision "draft" none) "intent_router_draft" with
  | error e1 =>
    have he1 : e1 = e := by
      simp [generateAndReturn, generate_response, draft_only, call_engine, hd,
        Except.map] at h
      exact h
    subst he1
    exact ⟨⟨build_prompt m vision "draft" none, "intent_router_draft"⟩,
      by simp [generateAndReturn, generate_response, draft_only, call_engine, hd], hd⟩
  | ok d =>
    cases hf : ai_engine (build_prompt m vision "verify" (some d))
        "intent_router_verify" with
    | error e1 =>
      have he1 : e1 = e := by
        simp [generateAndReturn, generate_response, draft_only, verify_and_finalize,
          call_engine, hd, hf, Except.map] at h
        exact h
      subst he1
      exact ⟨⟨build_prompt m vision "verify" (some d), "intent_router_verify"⟩,
        by simp [generateAndReturn, generate_response, draft_only, verify_and_finalize,
          call_engine, hd, hf], hf⟩
    | ok f =>
      exfalso
      simp [generateAndReturn, generate_response, draft_only, verify_and_finalize,
        call_engine, hd, hf, Except.map] at h

/-- Helper: if the suggestion-consuming step errors, the error is a backend
error and the failing call is in the trace. -/
theorem consume_error (s : RouterState) (ai_engine : Engine)
    (vision : Option String) (pre : List Call) (e : String)
    (h : (consumeSuggestion s ai_engine vision pre).result = Except.error e) :
    ∃ call ∈ (consumeSuggestion s ai_engine vision pre).calls,
      ai_engine call.prompt call.source = Except.error e := by
  cases hsug : s.suggested_response with
  | none =>
    exfalso
    simp [consumeSuggestion, hsug] at h
  | some sug =>
    by_cases hrs : s.respond_to_suggestion_requested = true
    case neg =>
      exfalso
      simp [consumeSuggestion, hsug, hrs] at h
    case pos =>
      cases hf : ai_engine (build_prompt sug.message vision "verify" (some sug.draft))
          "intent_router_verify" with
      | error e1 =>
        have he1 : e1 = e := by
          simp [consumeSuggestion, hsug, hrs, verify_and_finalize, call_engine, hf] at h
          exact h
        subst he1
        exact ⟨⟨build_prompt sug.message vision "verify" (some sug.draft),
          "intent_router_verify"⟩,
          by simp [consumeSuggestion, hsug, hrs, verify_and_finalize, call_engine, hf],
          hf⟩
      | ok f =>
        exfalso
        simp [consumeSuggestion, hsug, hrs, verify_and_finalize, call_engine, hf] at h

/-- Helper: with a succeeding backend the two-pass generation returns
normally. -/
theorem generate_ok (s' : RouterState) (ai_engine : Engine) (m : Message)
    (vision : Option String)
    (hok : ∀ p c, ∃ t, ai_engine p c = Except.ok t) :
    ∃ o, (generateAndReturn s' ai_engine m vision).result = Except.ok o := by
  obtain ⟨d, hd⟩ := hok (build_prompt m vision "draft" none) "intent_router_draft"
  obtain ⟨f, hf⟩ := hok (build_prompt m vision "verify" (some d)) "intent_router_verify"
  exact ⟨some f, by simp [generateAndReturn, generate_response, draft_only,
    verify_and_finalize, call_engine, hd, hf, Except.map]⟩

/-- Helper: with a succeeding backend the suggestion-consuming step returns
normally. -/
theorem consume_ok (s : RouterState) (ai_engine : Engine)
    (vision : Option String) (pre : List Call)
    (hok : ∀ p c, ∃ t, ai_engine p c = Except.ok t) :
    ∃ o, (consumeSuggestion s ai_engine vision pre).result = Except.ok o := by
  cases hsug : s.suggested_response with
  | none => exact ⟨none, by simp [consumeSuggestion, hsug]⟩
  | some sug =>
    by_cases hrs : s.respond_to_suggestion_requested = true
    case pos =>
      obtain ⟨f, hf⟩ :=
        hok (build_prompt sug.message vision "verify" (some sug.draft))
          "intent_router_verify"
      exact ⟨some f, by simp [consumeSuggestion, hsug, hrs, verify_and_finalize,
        call_engine, hf]⟩
    case neg => exact ⟨none, by simp [consumeSuggestion, hsug, hrs]⟩

/-- C6 amended: `route_intent` contains no exception handler — a backend
exception propagates to the caller unchanged (every error outcome of
`route_intent` is the error of one of its own backend calls), and when the
backend always succeeds `route_intent` returns normally; `handle_chat_message`
(which never calls the backend) always returns either `None` or a structured
result whose status is one of the six documented values. -/
theorem route_intent_error_semantics (s : RouterState) (ai_engine : Engine)
    (vision : Option String) :
    (∀ e, (route_intent s ai_engine vision).result = Except.error e →
      ∃ call ∈ (route_intent s ai_engine vision).calls,
        ai_engine call.prompt call.source = Except.error e) ∧
    ((∀ p c, ∃ t, ai_engine p c = Except.ok t) →
      ∃ o, (route_intent s ai_engine vision).result = Except.ok o) ∧
    (∀ (st : HandlerState) (text user role : String) (now : ℚ),
      (handle_chat_message st text user role now).1 = none ∨
      ∃ r, (handle_chat_message st text user role now).1 = some r ∧
        (r.status = "ok" ∨ r.status = "error" ∨ r.status = "unknown_command" ∨
         r.status = "disabled" ∨ r.status = "blocked" ∨ r.status = "cooldown")) := by
  refine ⟨?_, ?_, ?_⟩
  · intro e h
    cases hm : s.last_message with
    | none =>
      exfalso
      simp [route_intent, hm] at h
    | some m =>
      by_cases hv : pyLower (pyStrip m.source) = "voice_input"
      · have he : route_intent s ai_engine vision =
            generateAndReturn s ai_engine m vision := by
          simp [route_intent, hm, hv]
        rw [he] at h ⊢
        exact generate_error s ai_engine m vision e h
      · by_cases ha : s.auto_reply_enabled = true
        · have he : route_intent s ai_engine vision =
              generateAndReturn s ai_engine m vision := by
            simp [route_intent, hm, hv, ha]
          rw [he] at h ⊢
          exact generate_error s ai_engine m vision e h
        · by_cases hrn : s.respond_now_requested = true
          · have he : route_intent s ai_engine vision =
                generateAndReturn { s with respond_now_requested := false }
                  ai_engine m vision := by
              simp [route_intent, hm, hv, ha, hrn]
            rw [he] at h ⊢
            exact generate_error _ ai_engine m vision e h
          · have he : route_intent s ai_engine vision =
                copilotRoute s ai_engine m vision := by
              simp [route_intent, hm, hv, ha, hrn]
            rw [he] at h ⊢
            cases hsug : s.suggested_response with
            | none =>
              cases hd : ai_engine (build_prompt m vision "draft" none)
                  "intent_router_draft" with
              | error e1 =>
                have he1 : e1 = e := by
                  simp [copilotRoute, hsug, draft_only, call_engine, hd] at h
                  exact h
                subst he1
                exact ⟨⟨build_prompt m vision "draft" none, "intent_router_draft"⟩,
                  by simp [copilotRoute, hsug, draft_only, call_engine, hd], hd⟩
              | ok d0 =>
                have he2 : copilotRoute s ai_engine m vision =
                    consumeSuggestion { s with suggested_response := some ⟨m, d0⟩ }
                      ai_engine vision
                      [⟨build_prompt m vision "draft" none, "intent_router_draft"⟩] := by
                  simp [copilotRoute, hsug, draft_only, call_engine, hd]
                rw [he2] at h ⊢
                exact consume_error _ ai_engine vision _ e h
            | some sug0 =>
              have he2 : copilotRoute s ai_engine m vision =
                  consumeSuggestion s ai_engine vision [] := by
                simp [copilotRoute, hsug]
              rw [he2] at h ⊢
              exact consume_error s ai_engine vision [] e h
  · intro hok
    cases hm : s.last_message with
    | none => exact ⟨none, by simp [route_intent, hm]⟩
    | some m =>
      by_cases hv : pyLower (pyStrip m.source) = "voice_input"
      · have he : route_intent s ai_engine vision =
            generateAndReturn s ai_engine m vision := by
          simp [route_intent, hm, hv]
        rw [he]
        exact generate_ok s ai_engine m vision hok
      · by_cases ha : s.auto_reply_enabled = true
        · have he : route_intent s ai_engine vision =
              generateAndReturn s ai_engine m vision := by
            simp [route_intent, hm, hv, ha]
          rw [he]
          exact generate_ok s ai_engine m vision hok
        · by_cases hrn : s.respond_now_requested = true
          · have he : route_intent s ai_engine vision =
                generateAndReturn { s with respond_now_requested := false }
                  ai_engine m vision := by
              simp [route_intent, hm, hv, ha, hrn]
            rw [he]
            exact generate_ok _ ai_engine m vision hok
          · have he : route_intent s ai_engine vision =
                copilotRoute s ai_engine m vision := by
              simp [route_intent, hm, hv, ha, hrn]
            rw [he]
            cases hsug : s.suggested_response with
            | none =>
              obtain ⟨d0, hd⟩ :=
                hok (build_prompt m vision "draft" none) "intent_router_draft"
              have he2 : copilotRoute s ai_engine m vision =
                  consumeSuggestion { s with suggested_response := some ⟨m, d0⟩ }
                    ai_engine vision
                    [⟨build_prompt m vision "draft" none, "intent_router_draft"⟩] := by
                simp [copilotRoute, hsug, draft_only, call_engine, hd]
              rw [he2]
              exact consume_ok _ ai_engine vision _ hok
            | some sug0 =>
              have he2 : copilotRoute s ai_engine m vision =
                  consumeSuggestion s ai_engine vision [] := by
                simp [copilotRoute, hsug]
              rw [he2]
              exact consume_ok s ai_engine vision [] hok
  · intro st text user role now
    simp only [handle_chat_message]
    repeat' split
    all_goals simp [cmd_ping, cmd_help]

/-- Counterexample to C6 as stated: for a registered voice message and a
backend whose call raises `boom`, the exception escapes `route_intent` to its
caller — it is not converted into a null or structured result.  (This matches
the spec's own failure-semantics paragraph, which says backend failure
propagates to the caller.) -/
theorem route_intent_exception_escapes :
    (route_intent wVoiceState wFailEngine none).result = Except.error "boom" := rfl

/-- Witness for the amended C6: a chat state whose draft pass raises; the
escaped error is the backend's own, from a call in the trace. -/
theorem route_intent_error_semantics_witness :
    (route_intent wChatState wFailEngine none).result = Except.error "boom" ∧
    ∃ call ∈ (route_intent wChatState wFailEngine none).calls,
      wFailEngine call.prompt call.source = Except.error "boom" :=
  ⟨rfl, (route_intent_error_semantics wChatState wFailEngine none).1 "boom" rfl⟩



/-- Helper: dict assignment makes the assigned key look up to the new
value. -/
theorem lookup_setKey {α β : Type} [BEq α] [LawfulBEq α]
    (l : List (α × β)) (k : α) (v : β) :
    List.lookup k (setKey l k v) = some v := by
  induction l with
  | nil => simp [setKey, List.lookup]
  | cons kv rest ih =>
    obtain ⟨k1, v1⟩ := kv
    by_cases hk : k1 = k
    · subst hk
      simp [setKey, List.lookup]
    · have hk1 : (k1 == k) = false := by simp [hk]
      have hk2 : (k == k1) = false := by
        simp only [beq_eq_false_iff_ne, ne_eq]
        intro h
        exact hk h.symm
      simp [setKey, hk1, List.lookup, hk2, ih]

/-- C7: for a known, enabled custom command invoked by a
sufficiently-privileged user, the global cooldown gate is checked first and
then the per-user gate, each rejection carrying status `cooldown` and the
exact remaining wait (`cd - (now - last)`, rounded to a tenth only for
display) with neither ledger updated; on success the result has status `ok`
and `now` is stamped into both the global and the per-user ledger. -/
theorem cooldown_gate (st : HandlerState) (text user role : String) (now : ℚ)
    (name args : String) (cmd : CommandDefinition)
    (hmsg : pyStartsWith (pyStrip text) "!" = true)
    (hparse : parse_bang_command (pyStrip text) = (name, args))
    (hn0 : ¬ name = "")
    (hn1 : ¬ name = "ping")
    (hn2 : ¬ name = "help")
    (hcmd : List.lookup name st.custom_commands = some cmd)
    (hen : cmd.enabled = true)
    (hrole : role_allows (norm_role role) cmd.permission = true)
    (hg : 0 < cmd.cooldown_seconds)
    (hu : 0 < cmd.user_cooldown_seconds) :
    (now - lookupD st.last_used_global name 0 < cmd.cooldown_seconds →
      handle_chat_message st text user role now =
        (some ⟨"cooldown",
          "Cooldown active. Try again in " ++
            formatTenth (cmd.cooldown_seconds -
              (now - lookupD st.last_used_global name 0)) ++ "s",
          [("retry_after_seconds", JVal.num (round1 (cmd.cooldown_seconds -
            (now - lookupD st.last_used_global name 0))))]⟩, st)) ∧
    (¬ now - lookupD st.last_used_global name 0 < cmd.cooldown_seconds →
      now - lookupD st.last_used_user (name, user) 0 < cmd.user_cooldown_seconds →
      handle_chat_message st text user role now =
        (some ⟨"cooldown",
          "Cooldown active. Try again in " ++
            formatTenth (cmd.user_cooldown_seconds -
              (now - lookupD st.last_used_user (name, user) 0)) ++ "s",
          [("retry_after_seconds", JVal.num (round1 (cmd.user_cooldown_seconds -
            (now - lookupD st.last_used_user (name, user) 0))))]⟩, st)) ∧
    (¬ now - lookupD st.last_used_global name 0 < cmd.cooldown_seconds →
      ¬ now - lookupD st.last_used_user (name, user) 0 < cmd.user_cooldown_seconds →
      handle_chat_message st text user role now =
        (some ⟨"ok", render_response cmd.response user args,
          [("command", JVal.str name)]⟩, mark_used st name user now) ∧
      lookupD (mark_used st name user now).last_used_global name 0 = now ∧
      lookupD (mark_used st name user now).last_used_user (name, user) 0 = now) := by
  refine ⟨?_, ?_, ?_⟩
  · intro h1
    have hmax : max 0 (cmd.cooldown_seconds -
        (now - lookupD st.last_used_global name 0)) =
        cmd.cooldown_seconds - (now - lookupD st.last_used_global name 0) :=
      max_eq_right (by linarith)
    have hcw : check_cooldowns st name user now cmd.cooldown_seconds
        cmd.user_cooldown_seconds =
        (false, cmd.cooldown_seconds - (now - lookupD st.last_used_global name 0)) := by
      simp [check_cooldowns, hg, h1, hmax]
    simp [handle_chat_message, hmsg, hparse, hn0, hn1, hn2, hcmd, hen, hrole, hcw]
  · intro h1 h2
    have hmax : max 0 (cmd.user_cooldown_seconds -
        (now - lookupD st.last_used_user (name, user) 0)) =
        cmd.user_cooldown_seconds - (now - lookupD st.last_used_user (name, user) 0) :=
      max_eq_right (by linarith)
    have hcw : check_cooldowns st name user now cmd.cooldown_seconds
        cmd.user_cooldown_seconds =
        (false, cmd.user_cooldown_seconds -
          (now - lookupD st.last_used_user (name, user) 0)) := by
      simp [check_cooldowns, h1, hu, h2, hmax]
    simp [handle_chat_message, hmsg, hparse, hn0, hn1, hn2, hcmd, hen, hrole, hcw]
  · intro h1 h2
    have hcw : check_cooldowns st name user now cmd.cooldown_seconds
        cmd.user_cooldown_seconds = (true, 0) := by
      simp [check_cooldowns, h1, h2]
    refine ⟨?_, ?_, ?_⟩
    · simp [handle_chat_message, hmsg, hparse, hn0, hn1, hn2, hcmd, hen, hrole, hcw]
    · simp [mark_used, lookupD, lookup_setKey]
    · simp [mark_used, lookupD, lookup_setKey]



/-- Witness for C7: the command `hello` (3 s global / 10 s per-user
cooldown, last used globally at t = 100) invoked by `bob` at t = 104: both
gates pass, the call succeeds and stamps both ledgers. -/
theorem cooldown_gate_witness :
    List.lookup "hello" wHandler.custom_commands = some wCmd ∧
    (0 : ℚ) < wCmd.cooldown_seconds ∧ (0 : ℚ) < wCmd.user_cooldown_seconds ∧
    ((104 - lookupD wHandler.last_used_global "hello" 0 < wCmd.cooldown_seconds →
      handle_chat_message wHandler "!hello" "bob" "everyone" 104 =
        (some ⟨"cooldown",
          "Cooldown active. Try again in " ++
            formatTenth (wCmd.cooldown_seconds -
              (104 - lookupD wHandler.last_used_global "hello" 0)) ++ "s",
          [("retry_after_seconds", JVal.num (round1 (wCmd.cooldown_seconds -
            (104 - lookupD wHandler.last_used_global "hello" 0))))]⟩, wHandler)) ∧
    (¬ (104 : ℚ) - lookupD wHandler.last_used_global "hello" 0 < wCmd.cooldown_seconds →
      (104 : ℚ) - lookupD wHandler.last_used_user ("hello", "bob") 0 < wCmd.user_cooldown_seconds →
      handle_chat_message wHandler "!hello" "bob" "everyone" 104 =
        (some ⟨"cooldown",
          "Cooldown active. Try again in " ++
            formatTenth (wCmd.user_cooldown_seconds -
              (104 - lookupD wHandler.last_used_user ("hello", "bob") 0)) ++ "s",
          [("retry_after_seconds", JVal.num (round1 (wCmd.user_cooldown_seconds -
            (104 - lookupD wHandler.last_used_user ("hello", "bob") 0))))]⟩, wHandler)) ∧
    (¬ (104 : ℚ) - lookupD wHandler.last_used_global "hello" 0 < wCmd.cooldown_seconds →
      ¬ (104 : ℚ) - lookupD wHandler.last_used_user ("hello", "bob") 0 < wCmd.user_cooldown_seconds →
      handle_chat_message wHandler "!hello" "bob" "everyone" 104 =
        (some ⟨"ok", render_response wCmd.response "bob" "",
          [("command", JVal.str "hello")]⟩, mark_used wHandler "hello" "bob" 104) ∧
      lookupD (mark_used wHandler "hello" "bob" 104).last_used_global "hello" 0 = 104 ∧
      lookupD (mark_used wHandler "hello" "bob" 104).last_used_user ("hello", "bob") 0 = 104)) :=
  ⟨rfl, by norm_num [wCmd], by norm_num [wCmd],
    cooldown_gate wHandler "!hello" "bob" "everyone" 104 "hello" "" wCmd rfl rfl
      (by decide) (by decide) (by decide) rfl rfl rfl
      (by norm_num [wCmd]) (by norm_num [wCmd])⟩



/-- Helper: the subscriber loop records one outcome per subscriber. -/
theorem publishLoop_eq_map {α : Type} (d : α) (cbs : List (α → Except String Unit)) :
    publishLoop d cbs = cbs.map (fun cb => cb d) := by
  induction cbs with
  | nil => rfl
  | cons cb rest ih => simp [publishLoop, ih]

/-- C8: publishing with zero subscribers returns normally with no calls;
with subscribers, every one is invoked exactly once, in subscription order,
and the i-th outcome is that callback's own — an earlier callback's raise
(an `Except.error` outcome, caught and logged inside the loop) never prevents
later subscribers from running and never reaches the publisher, whose return
type is total; a freshly subscribed callback is invoked last. -/
theorem event_bus_fault_isolation {α : Type} (bus : EventBus α) (e : String) (d : α) :
    (List.lookup e bus.subscribers = none → publish bus e d = []) ∧
    (∀ cbs, List.lookup e bus.subscribers = some cbs →
      (publish bus e d).length = cbs.length ∧
      ∀ i (h : i < cbs.length),
        (publish bus e d)[i]? = some (cbs.get ⟨i, h⟩ d)) ∧
    (∀ cb, publish (subscribe bus e cb) e d = publish bus e d ++ [cb d]) := by
  refine ⟨?_, ?_, ?_⟩
  · intro h
    simp [publish, h]
  · intro cbs h
    constructor
    · simp [publish, h, publishLoop_eq_map]
    · intro i hi
      simp [publish, h, publishLoop_eq_map, List.getElem?_map,
        List.getElem?_eq_getElem hi]
  · intro cb
    have hs : List.lookup e (subscribe bus e cb).subscribers =
        some ((List.lookup e bus.subscribers).getD [] ++ [cb]) := by
      simp [subscribe, lookup_setKey]
    cases hl : List.lookup e bus.subscribers with
    | none => simp [publish, hs, hl, publishLoop_eq_map]
    | some cbs => simp [publish, hs, hl, publishLoop_eq_map]

/-- Witness for C8: a bus whose first subscriber raises; the second still
runs and the publisher still receives the full outcome list. -/
theorem event_bus_fault_isolation_witness :
    List.lookup "evt" wBus.subscribers = some [wCbFail, wCbOk] ∧
    (publish wBus "evt" 0).length = 2 ∧
    (publish wBus "evt" 0)[0]? = some (Except.error "subscriber crashed") ∧
    (publish wBus "evt" 0)[1]? = some (Except.ok ()) := by
  have h := (event_bus_fault_isolation wBus "evt" 0).2.1 [wCbFail, wCbOk] rfl
  exact ⟨rfl, h.1, h.2 0 (by decide), h.2 1 (by decide)⟩

/-- Counterexample to C9 as stated: `/ping` begins with the `/` prefix but
`handle_chat_message` returns the null pass-through, not a structured command
result — only the `!` prefix starts a command. -/
theorem slash_prefix_not_recognized :
    pyStartsWith (pyStrip "/ping") "/" = true ∧
    (handle_chat_message ⟨[], [], []⟩ "/ping" "alice" "everyone" 0).1 = none :=
  ⟨rfl, rfl⟩

/-- C9 amended: `handle_chat_message` recognizes exactly the `!` prefix:
every message whose stripped text starts with `!` yields a structured command
result, and every other message (including `/command` forms) yields the null
pass-through. -/
theorem bang_prefix_only (st : HandlerState) (text user role : String) (now : ℚ) :
    (pyStartsWith (pyStrip text) "!" = true →
      ∃ r, (handle_chat_message st text user role now).1 = some r) ∧
    (pyStartsWith (pyStrip text) "!" = false →
      (handle_chat_message st text user role now).1 = none) := by
  constructor
  · intro h
    have hh : ¬ ¬ (pyStartsWith (pyStrip text) "!" = true) := not_not_intro h
    simp only [handle_chat_message, if_neg hh]
    repeat' split
    all_goals exact ⟨_, rfl⟩
  · intro h
    simp [handle_chat_message, h]

/-- Witness for the amended C9: `!ping` yields a structured result. -/
theorem bang_prefix_only_witness :
    pyStartsWith (pyStrip "!ping") "!" = true ∧
    (∃ r, (handle_chat_message wHandler "!ping" "alice" "everyone" 0).1 = some r) :=
  ⟨rfl, (bang_prefix_only wHandler "!ping" "alice" "everyone" 0).1 rfl⟩


end CoPartner
